import Mathlib

/-!
Verification of the HydraSpecter repository against its specification.

The development shallowly embeds the two source files:

* `src/scripts/seleniumbase_bridge.py` — the Command Bridge: a stdio
  line-protocol server dispatching JSON commands to a lazily-created
  browser-driver session.  The external browser-automation engine
  (`seleniumbase.Driver`) is modelled as an abstract state machine
  (`DriverBehavior`): each primitive driver operation either returns a
  value or raises, and may update the abstract world state.  The bridge
  code itself (parameter handling, dispatch, the read loop, response
  construction) is translated from the Python source line by line.

* `src/scripts/manual-login.py` — the session-verification URL check
  (`test_persistence`) and the Profile Pool Synchronizer
  (`sync_to_all_pools`), embedded over a slot-per-artifact filesystem
  model in which each copy either succeeds (the replica slot becomes the
  canonical content) or fails (reported, slot untouched).

JSON values are modelled by `JValue`; Python's `None` coincides with
JSON `null` (`JValue.null`), since `json.loads` maps `null` to `None`.
-/

set_option linter.unusedVariables false

/-- A JSON value as produced by `json.loads`.  Numbers are modelled as
integers (the protocol only uses integral numbers). -/
inductive JValue where
  | null : JValue
  | bool : Bool → JValue
  | num : Int → JValue
  | str : String → JValue
  | arr : List JValue → JValue
  | obj : List (String × JValue) → JValue

/-- Python truthiness (`if not x` tests) for a decoded JSON value. -/
def JValue.isFalsy : JValue → Bool
  | .null => true
  | .bool b => !b
  | .num n => n == 0
  | .str s => s.isEmpty
  | .arr xs => xs.isEmpty
  | .obj kvs => kvs.isEmpty

/-- Is this value JSON `null` (Python `None`)? -/
def JValue.isNull : JValue → Bool
  | .null => true
  | _ => false

/-- Is this value a JSON object (Python `dict`)? -/
def JValue.isObj : JValue → Bool
  | .obj _ => true
  | _ => false

/-- Is the decoded Python value hashable?  Decoded lists and dicts are
not; using one as the operand of a dict membership test raises
`TypeError: unhashable type: ...`. -/
def JValue.isHashable : JValue → Bool
  | .arr _ => false
  | .obj _ => false
  | _ => true

/-- The Python type name of the decoded value, as it appears in
`AttributeError` / `TypeError` messages. -/
def JValue.pyType : JValue → String
  | .null => "NoneType"
  | .bool _ => "bool"
  | .num _ => "int"
  | .str _ => "str"
  | .arr _ => "list"
  | .obj _ => "dict"

/-- Python `str()` of a decoded JSON value (used by f-string
interpolation in the source, e.g. `f'Unknown method: ...'`).  Scalars
are rendered exactly; for containers the element-wise `repr` text is
abbreviated to a placeholder — an acknowledged approximation, reachable
only in `scroll`'s interpolated script when `amount` is a container,
and never inspected by a theorem. -/
def JValue.pyStr : JValue → String
  | .null => "None"
  | .bool true => "True"
  | .bool false => "False"
  | .num n => toString n
  | .str s => s
  | .arr _ => "[...]"
  | .obj _ => "\x7b...\x7d"

/-- Python `x == "lit"` for a decoded value: only a string can compare
equal to a string literal. -/
def JValue.eqStr : JValue → String → Bool
  | .str s, t => s == t
  | _, _ => false

/-- `d.get(key, default)` on a decoded value.  On a non-`dict` it raises
`AttributeError`, which the bridge's dispatch boundary converts into a
failed response; the raised message is returned in the `error` case. -/
def jget (v : JValue) (k : String) (d : JValue) : Except String JValue :=
  match v with
  | .obj kvs => .ok ((List.lookup k kvs).getD d)
  | other => .error ("'" ++ other.pyType ++ "' object has no attribute 'get'")

/-- Substring occurrence over character lists (structural recursion, so
that concrete instances evaluate inside the kernel). -/
def strContainsList (needle : List Char) : List Char → Bool
  | [] => needle.isEmpty
  | c :: t => needle.isPrefixOf (c :: t) || strContainsList needle t

/-- Python `needle in hay` for strings (substring test; an empty needle
is contained in everything). -/
def pyIn (needle hay : String) : Bool :=
  strContainsList needle.toList hay.toList

/-- Python `key in v` (membership test, used by the `scroll` handler). -/
def jContains (v : JValue) (k : String) : Except String Bool :=
  match v with
  | .obj kvs => .ok ((kvs.map Prod.fst).contains k)
  | .str s => .ok (pyIn k s)
  | .arr xs => .ok (xs.any (fun x => x.eqStr k))
  | other => .error ("argument of type '" ++ other.pyType ++ "' is not iterable")

/-- Python `v[key]` subscription (used by `scroll` after the `in` test). -/
def jIndex (v : JValue) (k : String) : Except String JValue :=
  match v with
  | .obj kvs =>
    match List.lookup k kvs with
    | some x => .ok x
    | none => .error ("KeyError: " ++ k)
  | .str _ => .error "string indices must be integers"
  | .arr _ => .error ("list indices must be integers or slices, not str")
  | other => .error ("'" ++ other.pyType ++ "' object is not subscriptable")

/-- The primitive operations the bridge invokes on the external
browser-automation driver (`seleniumbase`), one per call site in
`seleniumbase_bridge.py`. -/
inductive DriverOp where
  | createDriver (headless : JValue) (userDataDir : JValue) (proxy : Option JValue)
  | setWindowSize (w h : JValue)
  | setWindowPosition (x y : JValue)
  | ucOpenWithReconnect (url : JValue) (reconnectTime : Int)
  | ucClick (selector : JValue)
  | plainClick (selector : JValue)
  | clearField (selector : JValue)
  | typeKeys (selector text : JValue)
  | screenshotPng
  | pageSource
  | getPageSource
  | executeScript (script : JValue)
  | waitForElement (selector timeout : JValue)
  | scrollToSel (selector : JValue)
  | quitDriver
  | currentUrl
  | pageTitle
  | guiClickCaptcha

/-- The Python attribute name through which each operation is reached on
the `driver` object (the name that appears in the `AttributeError` when
`driver` is `None`). -/
def DriverOp.attr : DriverOp → String
  | .createDriver _ _ _ => "Driver"
  | .setWindowSize _ _ => "set_window_size"
  | .setWindowPosition _ _ => "set_window_position"
  | .ucOpenWithReconnect _ _ => "uc_open_with_reconnect"
  | .ucClick _ => "uc_click"
  | .plainClick _ => "click"
  | .clearField _ => "clear"
  | .typeKeys _ _ => "type"
  | .screenshotPng => "get_screenshot_as_png"
  | .pageSource => "page_source"
  | .getPageSource => "get_page_source"
  | .executeScript _ => "execute_script"
  | .waitForElement _ _ => "wait_for_element"
  | .scrollToSel _ => "scroll_to"
  | .quitDriver => "quit"
  | .currentUrl => "current_url"
  | .pageTitle => "title"
  | .guiClickCaptcha => "uc_gui_click_captcha"

/-- The external browser engine: an abstract deterministic state machine.
`step` performs one driver operation, either returning a value or
raising (the `Except.error` message is the Python exception's `str`),
and updates the abstract world state either way. -/
structure DriverBehavior (σ : Type) where
  step : σ → DriverOp → (Except String JValue) × σ

/-- The bridge's mutable state: the `driver` variable of `main`
(`true` iff `driver is not None`) together with the external world. -/
structure BridgeState (σ : Type) where
  driver : Bool
  world : σ

/-- The result of running one handler: the returned value or the raised
exception message, together with the (possibly partially) updated state. -/
def HResult (σ : Type) := (Except String JValue) × BridgeState σ

/-- Sequencing of handler steps: stop at the first raised exception,
keeping the state reached so far (Python exceptions do not roll back
assignments already performed). -/
def hbind {σ : Type} (x : HResult σ) (f : JValue → BridgeState σ → HResult σ) : HResult σ :=
  match x with
  | (.error m, st) => (.error m, st)
  | (.ok v, st) => f v st

/-- Lift a pure `Except` computation (a `params.get` call) into `HResult`. -/
def hpure {σ : Type} (x : Except String JValue) (st : BridgeState σ) : HResult σ :=
  (x, st)

/-- An attribute access / method call on the `driver` variable: when the
session is uninitialized (`driver is None`), Python raises
`AttributeError` naming the attribute; otherwise the external engine
performs the operation. -/
def callDriver {σ : Type} (B : DriverBehavior σ) (st : BridgeState σ) (op : DriverOp) :
    HResult σ :=
  if st.driver then
    let (r, w') := B.step st.world op
    (r, { st with world := w' })
  else
    (.error ("'NoneType' object has no attribute '" ++ op.attr ++ "'"), st)

/-- `init_driver` (seleniumbase_bridge.py lines 30–55).  Note that
`profileDir` is fetched with `params.get('profileDir')` and forwarded to
the `Driver` constructor without any presence validation. -/
def init_driver {σ : Type} (B : DriverBehavior σ) (params : JValue) (st : BridgeState σ) :
    HResult σ :=
  hbind (hpure (jget params "windowSize" (.obj [])) st) fun ws st =>
  hbind (hpure (jget ws "width" (.num 1280)) st) fun width st =>
  hbind (hpure (jget ws "height" (.num 720)) st) fun height st =>
  hbind (hpure (jget params "headless" (.bool false)) st) fun headless st =>
  hbind (hpure (jget params "profileDir" .null) st) fun profileDir st =>
  hbind (hpure (jget params "proxy" .null) st) fun proxyRaw st =>
  -- `proxy=params.get('proxy') or None`
  let proxy : Option JValue := if proxyRaw.isFalsy then none else some proxyRaw
  -- `driver = Driver(...)`: on success the nonlocal `driver` is assigned;
  -- on failure it keeps its previous value.
  match B.step st.world (.createDriver headless profileDir proxy) with
  | (.error m, w') => (.error m, { st with world := w' })
  | (.ok _, w') =>
    let st := { driver := true, world := w' }
    hbind (callDriver B st (.setWindowSize width height)) fun _ st =>
    hbind (hpure (jget params "windowPosition" .null) st) fun wp st =>
    if wp.isFalsy then (.ok (.bool true), st)
    else
      hbind (hpure (jget wp "x" (.num 0)) st) fun x st =>
      hbind (hpure (jget wp "y" (.num 0)) st) fun y st =>
      hbind (callDriver B st (.setWindowPosition x y)) fun _ st =>
      (.ok (.bool true), st)

/-- `navigate` (lines 57–62). -/
def navigate {σ : Type} (B : DriverBehavior σ) (params : JValue) (st : BridgeState σ) :
    HResult σ :=
  hbind (hpure (jget params "url" .null) st) fun url st =>
  if url.isFalsy then (.error "URL required", st)
  else
    hbind (callDriver B st (.ucOpenWithReconnect url 3)) fun _ st =>
    (.ok (.bool true), st)

/-- `click` (lines 64–75). -/
def click {σ : Type} (B : DriverBehavior σ) (params : JValue) (st : BridgeState σ) :
    HResult σ :=
  hbind (hpure (jget params "selector" .null) st) fun selector st =>
  hbind (hpure (jget params "ucClick" (.bool true)) st) fun ucClick st =>
  if selector.isFalsy then (.error "Selector required", st)
  else if ucClick.isFalsy then
    hbind (callDriver B st (.plainClick selector)) fun _ st => (.ok (.bool true), st)
  else
    hbind (callDriver B st (.ucClick selector)) fun _ st => (.ok (.bool true), st)

/-- `type_text` (lines 77–87): the handler for method `"type"`. -/
def type_text {σ : Type} (B : DriverBehavior σ) (params : JValue) (st : BridgeState σ) :
    HResult σ :=
  hbind (hpure (jget params "selector" .null) st) fun selector st =>
  hbind (hpure (jget params "text" .null) st) fun text st =>
  -- `if not selector or text is None`
  if selector.isFalsy || text.isNull then (.error "Selector and text required", st)
  else
    hbind (hpure (jget params "clear" (.bool false)) st) fun clearFlag st =>
    if clearFlag.isFalsy then
      hbind (callDriver B st (.typeKeys selector text)) fun _ st => (.ok (.bool true), st)
    else
      hbind (callDriver B st (.clearField selector)) fun _ st =>
      hbind (callDriver B st (.typeKeys selector text)) fun _ st => (.ok (.bool true), st)

/-- `fill` (lines 89–97). -/
def fill {σ : Type} (B : DriverBehavior σ) (params : JValue) (st : BridgeState σ) :
    HResult σ :=
  hbind (hpure (jget params "selector" .null) st) fun selector st =>
  hbind (hpure (jget params "value" .null) st) fun value st =>
  if selector.isFalsy || value.isNull then (.error "Selector and value required", st)
  else
    hbind (callDriver B st (.clearField selector)) fun _ st =>
    hbind (callDriver B st (.typeKeys selector value)) fun _ st => (.ok (.bool true), st)

/-- The base64 alphabet, for `base64.b64encode` in the `screenshot`
handler. -/
def b64char (n : Nat) : Char :=
  "ABCDEFGHIJKLMNOPQRSTUVWXYZabcdefghijklmnopqrstuvwxyz0123456789+/".toList.getD n 'A'

/-- `base64.b64encode` over a byte list. -/
def b64encodeBytes : List Nat → String
  | [] => ""
  | [a] =>
    String.mk [b64char (a / 4), b64char (a % 4 * 16)] ++ "=="
  | [a, b] =>
    String.mk [b64char (a / 4), b64char (a % 4 * 16 + b / 16), b64char (b % 16 * 4)] ++ "="
  | a :: b :: c :: rest =>
    String.mk [b64char (a / 4), b64char (a % 4 * 16 + b / 16),
               b64char (b % 16 * 4 + c / 64), b64char (c % 64)] ++ b64encodeBytes rest

/-- `base64.b64encode(bytes).decode('utf-8')` where the bytes are the
UTF-8 encoding of the abstract screenshot payload. -/
def b64encode (s : String) : String :=
  b64encodeBytes (s.toUTF8.toList.map (fun b => b.toNat))

/-- `screenshot` (lines 99–103). -/
def screenshot {σ : Type} (B : DriverBehavior σ) (params : JValue) (st : BridgeState σ) :
    HResult σ :=
  hbind (callDriver B st .screenshotPng) fun png st =>
  match png with
  | .str s => (.ok (.str (b64encode s)), st)
  | other => (.error ("a bytes-like object is required, not '" ++ other.pyType ++ "'"), st)

/-- `snapshot` (lines 105–110). -/
def snapshot {σ : Type} (B : DriverBehavior σ) (params : JValue) (st : BridgeState σ) :
    HResult σ :=
  hbind (hpure (jget params "format" (.str "html")) st) fun fmt st =>
  if fmt.eqStr "html" then
    hbind (callDriver B st .pageSource) fun v st =>
      (.ok (.obj [("content", v), ("format", .str "html")]), st)
  else
    hbind (callDriver B st .getPageSource) fun v st =>
      (.ok (.obj [("content", v), ("format", .str "text")]), st)

/-- `evaluate` (lines 112–116): forwards the script's return value
unchanged (a script returning `null` yields Python `None`). -/
def evaluate {σ : Type} (B : DriverBehavior σ) (params : JValue) (st : BridgeState σ) :
    HResult σ :=
  hbind (hpure (jget params "script" .null) st) fun script st =>
  if script.isFalsy then (.error "Script required", st)
  else callDriver B st (.executeScript script)

/-- `wait_element` (lines 118–124). -/
def wait_element {σ : Type} (B : DriverBehavior σ) (params : JValue) (st : BridgeState σ) :
    HResult σ :=
  hbind (hpure (jget params "selector" .null) st) fun selector st =>
  hbind (hpure (jget params "timeout" (.num 10)) st) fun timeout st =>
  if selector.isFalsy then (.error "Selector required", st)
  else
    hbind (callDriver B st (.waitForElement selector timeout)) fun _ st =>
    (.ok (.bool true), st)

/-- `scroll` (lines 126–136). -/
def scroll {σ : Type} (B : DriverBehavior σ) (params : JValue) (st : BridgeState σ) :
    HResult σ :=
  hbind (hpure ((jContains params "selector").map (fun b => JValue.bool b)) st) fun hasSel st =>
  if hasSel.isFalsy then
    hbind (hpure (jget params "direction" (.str "down")) st) fun direction st =>
    hbind (hpure (jget params "amount" (.num 300)) st) fun amount st =>
    if direction.eqStr "down" then
      hbind (callDriver B st
          (.executeScript (.str ("window.scrollBy(0, " ++ amount.pyStr ++ ")")))) fun _ st =>
        (.ok (.bool true), st)
    else
      hbind (callDriver B st
          (.executeScript (.str ("window.scrollBy(0, -" ++ amount.pyStr ++ ")")))) fun _ st =>
        (.ok (.bool true), st)
  else
    hbind (hpure (jIndex params "selector") st) fun sel st =>
    hbind (callDriver B st (.scrollToSel sel)) fun _ st =>
    (.ok (.bool true), st)

/-- `close` (lines 138–143): `if driver: driver.quit(); driver = None`.
When `quit` raises, the assignment `driver = None` is never reached. -/
def close {σ : Type} (B : DriverBehavior σ) (params : JValue) (st : BridgeState σ) :
    HResult σ :=
  if st.driver then
    let (r, w') := B.step st.world .quitDriver
    match r with
    | .error m => (.error m, { driver := true, world := w' })
    | .ok _ => (.ok (.bool true), { driver := false, world := w' })
  else
    (.ok (.bool true), st)

/-- `get_url` (lines 145–146): `driver.current_url if driver else 'about:blank'`. -/
def get_url {σ : Type} (B : DriverBehavior σ) (params : JValue) (st : BridgeState σ) :
    HResult σ :=
  if st.driver then callDriver B st .currentUrl
  else (.ok (.str "about:blank"), st)

/-- `get_title` (lines 148–149): `driver.title if driver else ''`. -/
def get_title {σ : Type} (B : DriverBehavior σ) (params : JValue) (st : BridgeState σ) :
    HResult σ :=
  if st.driver then callDriver B st .pageTitle
  else (.ok (.str ""), st)

/-- `solve_turnstile` (lines 151–154). -/
def solve_turnstile {σ : Type} (B : DriverBehavior σ) (params : JValue) (st : BridgeState σ) :
    HResult σ :=
  hbind (callDriver B st .guiClickCaptcha) fun _ st => (.ok (.bool true), st)

/-- The keys of the `handlers` dict (lines 156–172). -/
def handlerNames : List String :=
  ["init", "navigate", "click", "type", "fill", "screenshot", "snapshot",
   "evaluate", "wait_element", "scroll", "close", "get_url", "get_title",
   "solve_turnstile"]

/-- `handlers[method](params)` for a method known to be in the table. -/
def runHandler {σ : Type} (B : DriverBehavior σ) (s : String) (params : JValue)
    (st : BridgeState σ) : HResult σ :=
  match s with
  | "init" => init_driver B params st
  | "navigate" => navigate B params st
  | "click" => click B params st
  | "type" => type_text B params st
  | "fill" => fill B params st
  | "screenshot" => screenshot B params st
  | "snapshot" => snapshot B params st
  | "evaluate" => evaluate B params st
  | "wait_element" => wait_element B params st
  | "scroll" => scroll B params st
  | "close" => close B params st
  | "get_url" => get_url B params st
  | "get_title" => get_title B params st
  | "solve_turnstile" => solve_turnstile B params st
  | _ => (.error "unreachable: method checked against handlers first", st)

/-- One line of the response stream, as built by `send_response`
(lines 22–28): the `data` / `error` fields are present exactly when the
corresponding argument `is not None`. -/
structure Response where
  id : JValue
  success : Bool
  data : Option JValue
  error : Option String

/-- Dispatch of one decoded command object (`main` lines 181–194):
extract `id` / `method` / `params` with their defaults, reject unknown
methods, and convert a handler exception into a failed response.  On
success `send_response(cmd_id, True, data=result)` omits the `data`
field when the handler returned `None`.  A method value decoded from a
JSON array or object is unhashable in CPython, so the membership test
`method not in handlers` (line 186) raises `TypeError: unhashable
type: ...`, which the loop does not catch — returned here as `.error`,
the message of the uncaught exception; hashable non-string method
values (`null`, booleans, numbers) are merely absent from the table and
take the `Unknown method` path, rendered by `str()`. -/
def processCmd {σ : Type} (B : DriverBehavior σ) (kvs : List (String × JValue))
    (st : BridgeState σ) : Except String (Response × BridgeState σ) :=
  let cmd_id := (List.lookup "id" kvs).getD (.str "")
  let method := (List.lookup "method" kvs).getD (.str "")
  let params := (List.lookup "params" kvs).getD (.obj [])
  match method with
  | .str s =>
    if s ∈ handlerNames then
      match runHandler B s params st with
      | (.ok v, st') =>
        .ok ({ id := cmd_id, success := true,
               data := if v.isNull then none else some v, error := none }, st')
      | (.error m, st') =>
        .ok ({ id := cmd_id, success := false, data := none, error := some m }, st')
    else
      .ok ({ id := cmd_id, success := false, data := none,
             error := some ("Unknown method: " ++ s) }, st)
  | .arr _ => .error "unhashable type: 'list'"
  | .obj _ => .error "unhashable type: 'dict'"
  | m =>
    .ok ({ id := cmd_id, success := false, data := none,
           error := some ("Unknown method: " ++ m.pyStr) }, st)

/-- One line of the input stream after `line.strip()` and `json.loads`:
blank (skipped), undecodable (a `json.JSONDecodeError` with the given
message), or a decoded JSON value. -/
inductive InputLine where
  | blank : InputLine
  | badJson : String → InputLine
  | jsonVal : JValue → InputLine

/-- The observable outcome of a bridge run: the response stream, the
stderr diagnostics, whether an uncaught exception terminated the
process (and its message), and the final state. -/
structure RunResult (σ : Type) where
  responses : List Response
  diagLines : List String
  crashed : Option String
  finalSt : BridgeState σ

/-- The read loop of `main` (lines 175–198).  Only `json.JSONDecodeError`
is caught by the outer handler; a line that decodes to a non-`dict`
value raises an uncaught `AttributeError` at `cmd.get('id', '')`, and a
decoded object whose method value is unhashable raises an uncaught
`TypeError` inside the dispatch — either way the process terminates
with no further lines read. -/
def runLoop {σ : Type} (B : DriverBehavior σ) (st : BridgeState σ) :
    List InputLine → RunResult σ
  | [] => ⟨[], [], none, st⟩
  | .blank :: rest => runLoop B st rest
  | .badJson m :: rest =>
    let r := runLoop B st rest
    { r with diagLines := ("Invalid JSON: " ++ m) :: r.diagLines }
  | .jsonVal (.obj kvs) :: rest =>
    match processCmd B kvs st with
    | .error m => ⟨[], [], some m, st⟩
    | .ok (resp, st') =>
      let r := runLoop B st' rest
      { r with responses := resp :: r.responses }
  | .jsonVal v :: _ =>
    ⟨[], [], some ("'" ++ v.pyType ++ "' object has no attribute 'get'"), st⟩

/-- The process environment variables read at startup (lines 13–18). -/
structure Env where
  hydraProfileDir : Option String
  hydraHeadless : Option String
  hydraProxy : Option String
  hydraWindowSize : Option String
  hydraWindowPosition : Option String

/-- `main` (lines 12–198): parse the environment configuration into
local variables (which the rest of `main` never reads), then run the
read loop from an uninitialized session. -/
def bridgeMain {σ : Type} (env : Env) (B : DriverBehavior σ) (w0 : σ)
    (input : List InputLine) : RunResult σ :=
  let profile_dir := env.hydraProfileDir.getD ""
  let headless := (env.hydraHeadless.getD "false").toLower == "true"
  let proxy := env.hydraProxy.getD ""
  let window_size := env.hydraWindowSize.getD "1280,720"
  let window_position := env.hydraWindowPosition.getD ""
  runLoop B { driver := false, world := w0 } input

/-- Split a character list at the first occurrence of the (non-empty)
separator; `none` when the separator does not occur.  Models Python's
`s.split(sep, 1)`. -/
def splitOnceList (sep : List Char) : List Char → List Char × Option (List Char)
  | [] => ([], none)
  | c :: t =>
    if sep.isPrefixOf (c :: t) then ([], some ((c :: t).drop sep.length))
    else
      let (pre, rest) := splitOnceList sep t
      (c :: pre, rest)

/-- A character allowed in a URL scheme. -/
def isSchemeChar (c : Char) : Bool :=
  c.isAlpha || c.isDigit || c == '+' || c == '-' || c == '.'

/-- The `netloc` and `path` components of a URL. -/
structure UrlParts where
  netloc : String
  path : String

/-- Model of `urllib.parse.urlparse`, restricted to the components the
script reads (`netloc` and `path`): drop the fragment, strip a leading
`scheme:`, take the authority after `//` up to the first `/` or `?`,
and drop the query from the remainder. -/
def urlparse (url : String) : UrlParts :=
  let u := (splitOnceList ['#'] url.toList).1
  let u :=
    match splitOnceList [':'] u with
    | (sch, some rest) =>
      if !sch.isEmpty && sch.all isSchemeChar
          && (sch.headD 'a').isAlpha then rest else u
    | (_, none) => u
  if ['/', '/'].isPrefixOf u then
    let u2 := u.drop 2
    let netloc := u2.takeWhile (fun c => c != '/' && c != '?')
    let rest := u2.dropWhile (fun c => c != '/' && c != '?')
    ⟨String.mk netloc, String.mk (splitOnceList ['?'] rest).1⟩
  else
    ⟨"", String.mk (splitOnceList ['?'] u).1⟩

/-- `f"{parsed.netloc}{parsed.path}"` — the host+path string the
persistence check compares against. -/
def hostPath (url : String) : String :=
  (urlparse url).netloc ++ (urlparse url).path

/-- A `SITES` entry (manual-login.py lines 26–82). -/
structure Site where
  login_url : String
  check_url : String
  success_indicator : String

/-- The `SITES` table (lines 26–82). -/
def SITES : List (String × Site) :=
  [("google", ⟨"https://accounts.google.com/", "https://mail.google.com/",
      "mail.google.com/mail"⟩),
   ("amazon", ⟨"https://www.amazon.fr/ap/signin",
      "https://www.amazon.fr/gp/css/homepage.html", "amazon.fr"⟩),
   ("homeexchange", ⟨"https://www.homeexchange.fr/login",
      "https://www.homeexchange.fr/user/favorite", "homeexchange.fr/user"⟩),
   ("notion", ⟨"https://www.notion.so/login", "https://www.notion.so/", "notion.so"⟩),
   ("github", ⟨"https://github.com/login", "https://github.com/settings/profile",
      "github.com/settings"⟩),
   ("temu", ⟨"https://www.temu.com/login.html",
      "https://www.temu.com/bgp_user_profile.html", "temu.com"⟩),
   ("hellofresh", ⟨"https://www.hellofresh.fr/login",
      "https://www.hellofresh.fr/my-account/deliveries", "hellofresh.fr/my-account"⟩),
   ("aliexpress", ⟨"https://login.aliexpress.com/",
      "https://www.aliexpress.com/p/order/index.html", "aliexpress.com/p/order"⟩),
   ("kiabi", ⟨"https://www.kiabi.com/login", "https://www.kiabi.com/mon-compte",
      "kiabi.com/mon-compte"⟩),
   ("auchan", ⟨"https://www.auchan.fr/login",
      "https://www.auchan.fr/espace-client/profil", "auchan.fr/espace-client"⟩),
   ("chronodrive", ⟨"https://www.chronodrive.com/login",
      "https://www.chronodrive.com/mon-compte", "chronodrive.com/mon-compte"⟩)]

/-- Python `str.lower()` for the ASCII site names used here. -/
def pyLower (s : String) : String :=
  String.mk (s.toList.map Char.toLower)

/-- The three-way outcome of the persistence check. -/
inductive PersistResult where
  | success : PersistResult
  | stillOnLogin : PersistResult
  | didNotPersist (expected actual : String) : PersistResult
deriving DecidableEq

/-- The classification chain of `test_persistence`
(manual-login.py lines 252–282), as a function of the site name, the
site descriptor and the URL observed after navigation (and after the
account-chooser interstitial handling, which only re-navigates). -/
def classify (site_name : String) (site : Site) (url : String) : PersistResult :=
  let parsed := urlparse url
  let url_host_path := parsed.netloc ++ parsed.path
  if pyIn site.success_indicator url_host_path then .success
  else if pyLower site_name == "google" && pyIn "mail.google.com/mail" url_host_path then
    .success
  else if pyIn "accounts.google.com" parsed.netloc || pyIn "/signin" parsed.path
      || pyIn "/login" parsed.path then
    .stillOnLogin
  else
    .didNotPersist site.success_indicator url_host_path

/-- `test_persistence` (lines 208–286) as observed at its classification
boundary: look the site up (`SITES.get(site_name.lower())`, returning
`False` — here `none` — when unknown) and classify the final URL. -/
def test_persistence (site_name : String) (url : String) : Option PersistResult :=
  (List.lookup (pyLower site_name) SITES).map (fun site => classify site_name site url)

/-- `files_to_sync` (manual-login.py lines 109–115). -/
def files_to_sync : List String :=
  ["Default/Cookies", "Default/Local Storage", "Default/Session Storage",
   "Default/IndexedDB", "Default/Service Worker"]

/-- `range(1, 10)` — the replica pool indices (line 118). -/
def poolIndices : List Nat := [1, 2, 3, 4, 5, 6, 7, 8, 9]

/-- The profile pool filesystem, one content slot per artifact path:
`canonical p` is the content under `pool-0/p` (`none` when the path does
not exist), `replica i p` the content under `pool-i/p`. -/
structure PoolFS where
  canonical : String → Option String
  replica : Nat → String → Option String

/-- One `(replica, path)` copy attempt (lines 122–137): skip silently
when the source does not exist; otherwise the copy either succeeds —
the destination slot becomes the canonical content (`rmtree` +
`copytree` for directories, `copy2` for files) and the synced counter
is incremented — or raises, which is caught, reported, and leaves the
counter untouched.  `fails i p` says whether the copy for this pair
raises. -/
def syncItem (fails : Nat → String → Bool) (i : Nat) (p : String)
    (st : PoolFS × Nat) : PoolFS × Nat :=
  match st.1.canonical p with
  | none => st
  | some content =>
    if fails i p then st
    else
      ({ st.1 with
         replica := fun j q =>
           if j = i ∧ q = p then some content else st.1.replica j q }, st.2 + 1)

/-- The inner loop of `sync_to_all_pools`: all artifact paths for one
replica index. -/
def syncFiles (fails : Nat → String → Bool) (i : Nat) :
    List String → PoolFS × Nat → PoolFS × Nat
  | [], st => st
  | p :: ps, st => syncFiles fails i ps (syncItem fails i p st)

/-- The outer loop of `sync_to_all_pools`: all replica indices. -/
def syncPools (fails : Nat → String → Bool) :
    List Nat → PoolFS × Nat → PoolFS × Nat
  | [], st => st
  | i :: is, st => syncPools fails is (syncFiles fails i files_to_sync st)

/-- `sync_to_all_pools` (lines 103–139): for each replica `1..9` and
each artifact path, attempt the copy independently; return the final
pool state and the reported count of synced items. -/
def sync_to_all_pools (fails : Nat → String → Bool) (fs : PoolFS) : PoolFS × Nat :=
  syncPools fails poolIndices (fs, 0)

/-- Is the handler outcome a raised exception? -/
def isErr : Except String JValue → Bool
  | .error _ => true
  | .ok _ => false

/-- The `id` the bridge would echo for an input line, when the line is a
decoded command object (`cmd.get('id', '')`). -/
def lineCmdId : InputLine → Option JValue
  | .jsonVal (.obj kvs) => some ((List.lookup "id" kvs).getD (.str ""))
  | _ => none

/-- A line that cannot make the loop crash: blank, undecodable, or a
decoded object whose method value is hashable (so that neither
`cmd.get` nor the `method not in handlers` test raises). -/
def lineOk : InputLine → Bool
  | .jsonVal (.obj kvs) => ((List.lookup "method" kvs).getD (.str "")).isHashable
  | .jsonVal _ => false
  | _ => true

/-- The stderr line produced for an undecodable input line. -/
def diagOf : InputLine → Option String
  | .badJson m => some ("Invalid JSON: " ++ m)
  | _ => none

/-- A concrete browser engine that answers every operation successfully,
records the operations performed (most recent first), and has scripts
evaluate to `null`. -/
def recordingDriver : DriverBehavior (List DriverOp) :=
  ⟨fun w op =>
    (match op with
     | .executeScript _ => Except.ok JValue.null
     | _ => Except.ok (JValue.str "ok"), op :: w)⟩

/-- A concrete browser engine with no observable state in which every
operation succeeds returning `null`. -/
def stubDriver : DriverBehavior Unit := ⟨fun w _ => (.ok .null, w)⟩

/-- A process environment with none of the `HYDRA_*` variables set. -/
def noEnv : Env := ⟨none, none, none, none, none⟩

/-- A decoded command line. -/
def mkCmd (cmdId : JValue) (method : String) (params : JValue) : InputLine :=
  .jsonVal (.obj [("id", cmdId), ("method", .str method), ("params", params)])

/-- The command kvs of a `close` command with the given id. -/
def closeKvs (cmdId : JValue) : List (String × JValue) :=
  [("id", cmdId), ("method", .str "close"), ("params", .obj [])]

/-- A concrete command stream: a successful `init` followed by an
`evaluate` whose script returns `null`. -/
def nullResultInput : List InputLine :=
  [mkCmd (.num 1) "init" (.obj [("profileDir", .str "/profiles/pool-0")]),
   mkCmd (.num 2) "evaluate" (.obj [("script", .str "return document.missing")])]

/-- A concrete command stream exercising a decode failure, a blank line
and a command. -/
def mixedInput : List InputLine :=
  [.badJson "Expecting value: line 1 column 1 (char 0)", .blank,
   mkCmd (.num 3) "get_url" (.obj [])]

/-- The site descriptor of the specification's worked example
(`success_indicator="site.example/account"`). -/
def exampleSite : Site :=
  ⟨"https://site.example/login", "https://site.example/account", "site.example/account"⟩

/-- A concrete canonical profile in which the cookie store is absent and
every other artifact is present. -/
def cookielessFS : PoolFS :=
  ⟨fun p => if p = "Default/Cookies" then none else some ("content:" ++ p),
   fun _ _ => none⟩

/-- A failure pattern in which exactly one `(replica, path)` copy raises. -/
def oneFailure : Nat → String → Bool :=
  fun i p => decide (i = 3 ∧ p = "Default/IndexedDB")

theorem syncItem_canonical (fails : Nat → String → Bool) (i : Nat) (p : String)
    (st : PoolFS × Nat) : (syncItem fails i p st).1.canonical = st.1.canonical := by
  unfold syncItem
  split
  · rfl
  · split <;> rfl

theorem syncItem_replica (fails : Nat → String → Bool) (i : Nat) (p : String)
    (st : PoolFS × Nat) (j : Nat) (q : String) :
    (syncItem fails i p st).1.replica j q =
      if j = i ∧ q = p ∧ (st.1.canonical p).isSome ∧ fails i p = false
      then st.1.canonical p else st.1.replica j q := by
  by_cases h : j = i ∧ q = p ∧ (st.1.canonical p).isSome ∧ fails i p = false
  · obtain ⟨h1, h2, h3, h4⟩ := h
    obtain ⟨c, hc⟩ := Option.isSome_iff_exists.mp h3
    rw [if_pos ⟨h1, h2, h3, h4⟩]
    unfold syncItem
    simp [hc, h4, h1, h2]
  · rw [if_neg h]
    unfold syncItem
    cases hc : st.1.canonical p with
    | none => simp
    | some c =>
      cases hf : fails i p with
      | true => simp
      | false =>
        have hnj : ¬(j = i ∧ q = p) := by
          rintro ⟨a, b⟩
          exact h ⟨a, b, by simp [hc], hf⟩
        simp [hnj]

theorem syncItem_count (fails : Nat → String → Bool) (i : Nat) (p : String)
    (st : PoolFS × Nat) :
    (syncItem fails i p st).2 =
      st.2 + (if (st.1.canonical p).isSome && !(fails i p) then 1 else 0) := by
  unfold syncItem
  rcases hc : st.1.canonical p with _ | c
  · simp [hc]
  · rcases hf : fails i p with _ | _ <;> simp [hc, hf]

theorem syncFiles_canonical (fails : Nat → String → Bool) (i : Nat) (ps : List String)
    (st : PoolFS × Nat) : (syncFiles fails i ps st).1.canonical = st.1.canonical := by
  induction ps generalizing st with
  | nil => rfl
  | cons p ps ih => rw [syncFiles, ih, syncItem_canonical]

theorem syncFiles_replica (fails : Nat → String → Bool) (i : Nat) (ps : List String)
    (st : PoolFS × Nat) (j : Nat) (q : String) :
    (syncFiles fails i ps st).1.replica j q =
      if j = i ∧ q ∈ ps ∧ (st.1.canonical q).isSome ∧ fails i q = false
      then st.1.canonical q else st.1.replica j q := by
  induction ps generalizing st with
  | nil => simp [syncFiles]
  | cons p ps ih =>
    rw [syncFiles, ih, syncItem_canonical, syncItem_replica]
    by_cases h1 : j = i ∧ q ∈ ps ∧ (st.1.canonical q).isSome ∧ fails i q = false
    · rw [if_pos h1, if_pos ⟨h1.1, List.mem_cons_of_mem _ h1.2.1, h1.2.2⟩]
    · rw [if_neg h1]
      by_cases h2 : j = i ∧ q = p ∧ (st.1.canonical p).isSome ∧ fails i p = false
      · obtain ⟨hj, hqp, hpr, hf⟩ := h2
        subst hqp
        rw [if_pos ⟨hj, rfl, hpr, hf⟩, if_pos ⟨hj, List.mem_cons_self _ _, hpr, hf⟩]
      · rw [if_neg h2, if_neg]
        rintro ⟨hj, hmem, hpr, hf⟩
        rcases List.mem_cons.mp hmem with hqp | hqs
        · exact h2 ⟨hj, hqp, hqp ▸ hpr, hqp ▸ hf⟩
        · exact h1 ⟨hj, hqs, hpr, hf⟩

theorem syncFiles_count (fails : Nat → String → Bool) (i : Nat) (ps : List String)
    (st : PoolFS × Nat) :
    (syncFiles fails i ps st).2 =
      st.2 + ps.countP (fun p => (st.1.canonical p).isSome && !(fails i p)) := by
  induction ps generalizing st with
  | nil => simp [syncFiles]
  | cons p ps ih =>
    rw [syncFiles, ih, syncItem_count]
    simp only [syncItem_canonical, List.countP_cons]
    omega

theorem syncPools_canonical (fails : Nat → String → Bool) (is : List Nat)
    (st : PoolFS × Nat) : (syncPools fails is st).1.canonical = st.1.canonical := by
  induction is generalizing st with
  | nil => rfl
  | cons i is ih => rw [syncPools, ih, syncFiles_canonical]

theorem syncPools_replica (fails : Nat → String → Bool) (is : List Nat)
    (st : PoolFS × Nat) (j : Nat) (q : String) :
    (syncPools fails is st).1.replica j q =
      if j ∈ is ∧ q ∈ files_to_sync ∧ (st.1.canonical q).isSome ∧ fails j q = false
      then st.1.canonical q else st.1.replica j q := by
  induction is generalizing st with
  | nil => simp [syncPools]
  | cons i is ih =>
    rw [syncPools, ih, syncFiles_canonical, syncFiles_replica]
    by_cases h1 : j ∈ is ∧ q ∈ files_to_sync ∧ (st.1.canonical q).isSome ∧ fails j q = false
    · rw [if_pos h1, if_pos ⟨List.mem_cons_of_mem _ h1.1, h1.2⟩]
    · rw [if_neg h1]
      by_cases h2 : j = i ∧ q ∈ files_to_sync ∧ (st.1.canonical q).isSome ∧ fails i q = false
      · obtain ⟨hj, hq, hpr, hf⟩ := h2
        rw [if_pos ⟨hj, hq, hpr, hf⟩, if_pos ⟨by rw [hj]; exact List.mem_cons_self _ _, hq, hpr, hj ▸ hf⟩]
      · rw [if_neg h2, if_neg]
        rintro ⟨hmem, hq, hpr, hf⟩
        rcases List.mem_cons.mp hmem with hji | hjs
        · exact h2 ⟨hji, hq, hpr, hji ▸ hf⟩
        · exact h1 ⟨hjs, hq, hpr, hf⟩

theorem syncPools_count (fails : Nat → String → Bool) (is : List Nat)
    (st : PoolFS × Nat) :
    (syncPools fails is st).2 =
      st.2 + (is.map (fun i =>
        files_to_sync.countP (fun p => (st.1.canonical p).isSome && !(fails i p)))).sum := by
  induction is generalizing st with
  | nil => simp [syncPools]
  | cons i is ih =>
    rw [syncPools, ih, syncFiles_count]
    simp only [syncFiles_canonical, List.map_cons, List.sum_cons]
    omega

theorem processCmd_wf {σ : Type} (B : DriverBehavior σ) (kvs : List (String × JValue))
    (st : BridgeState σ) (resp : Response) (st' : BridgeState σ)
    (h : processCmd B kvs st = .ok (resp, st')) :
    resp.id = (List.lookup "id" kvs).getD (.str "") ∧
    (resp.error.isSome = true ↔ resp.success = false) ∧
    ¬(resp.data.isSome = true ∧ resp.error.isSome = true) ∧
    (resp.data.isSome = true → resp.success = true) := by
  unfold processCmd at h
  revert h
  cases hm : (List.lookup "method" kvs).getD (.str "") with
  | str s =>
    by_cases hs : s ∈ handlerNames
    · simp only [if_pos hs]
      rcases hr : runHandler B s ((List.lookup "params" kvs).getD (.obj [])) st with ⟨e, st2⟩
      cases e with
      | ok v =>
        intro h
        cases h
        cases v <;> simp
      | error m =>
        intro h
        cases h
        simp
    · simp only [if_neg hs]
      intro h
      cases h
      simp
  | null => intro h; cases h; simp
  | bool b => intro h; cases h; simp
  | num n => intro h; cases h; simp
  | arr xs => intro h; cases h
  | obj f => intro h; cases h

theorem processCmd_hashable_ok {σ : Type} (B : DriverBehavior σ)
    (kvs : List (String × JValue)) (st : BridgeState σ)
    (h : ((List.lookup "method" kvs).getD (.str "")).isHashable = true) :
    ∃ resp st', processCmd B kvs st = .ok (resp, st') := by
  unfold processCmd
  cases hm : (List.lookup "method" kvs).getD (.str "") with
  | str s =>
    by_cases hs : s ∈ handlerNames
    · simp only [if_pos hs]
      rcases hr : runHandler B s ((List.lookup "params" kvs).getD (.obj [])) st with ⟨e, st2⟩
      cases e with
      | ok v => exact ⟨_, _, rfl⟩
      | error m => exact ⟨_, _, rfl⟩
    · simp only [if_neg hs]
      exact ⟨_, _, rfl⟩
  | null => exact ⟨_, _, rfl⟩
  | bool b => exact ⟨_, _, rfl⟩
  | num n => exact ⟨_, _, rfl⟩
  | arr xs => rw [hm] at h; simp [JValue.isHashable] at h
  | obj f => rw [hm] at h; simp [JValue.isHashable] at h

theorem runLoop_responses {σ : Type} (B : DriverBehavior σ) (input : List InputLine)
    (st : BridgeState σ) :
    ∃ pre post, input = pre ++ post ∧
      (runLoop B st input).responses.map Response.id = pre.filterMap lineCmdId ∧
      ((runLoop B st input).crashed = none → post = []) ∧
      ∀ r ∈ (runLoop B st input).responses,
        (r.error.isSome = true ↔ r.success = false) ∧
        ¬(r.data.isSome = true ∧ r.error.isSome = true) ∧
        (r.data.isSome = true → r.success = true) := by
  induction input generalizing st with
  | nil => exact ⟨[], [], rfl, rfl, fun _ => rfl, by intro r hr; simp [runLoop] at hr⟩
  | cons l rest ih =>
    cases l with
    | blank =>
      obtain ⟨pre, post, heq, hmap, hcr, hwf⟩ := ih st
      exact ⟨.blank :: pre, post, by rw [heq]; rfl, hmap, hcr, hwf⟩
    | badJson m =>
      obtain ⟨pre, post, heq, hmap, hcr, hwf⟩ := ih st
      exact ⟨.badJson m :: pre, post, by rw [heq]; rfl, hmap, hcr, hwf⟩
    | jsonVal v =>
      cases v with
      | obj kvs =>
        rcases hp : processCmd B kvs st with m | ⟨resp, st'⟩
        · refine ⟨[], .jsonVal (.obj kvs) :: rest, rfl, by simp [runLoop, hp], ?_, ?_⟩
          · intro hcontra
            simp [runLoop, hp] at hcontra
          · intro r hr
            simp [runLoop, hp] at hr
        · obtain ⟨pre, post, heq, hmap, hcr, hwf⟩ := ih st'
          refine ⟨.jsonVal (.obj kvs) :: pre, post, by rw [heq]; rfl, ?_, ?_, ?_⟩
          · simp only [runLoop, hp, List.map_cons, List.filterMap_cons, lineCmdId]
            rw [(processCmd_wf B kvs st resp st' hp).1, hmap]
          · simpa [runLoop, hp] using hcr
          · intro r hr
            simp only [runLoop, hp, List.mem_cons] at hr
            rcases hr with hr | hr
            · obtain ⟨_, h2, h3, h4⟩ := processCmd_wf B kvs st resp st' hp
              rw [hr]
              exact ⟨h2, h3, h4⟩
            · exact hwf r hr
      | null => exact ⟨[], _, rfl, rfl, by intro h; exact absurd h (by simp [runLoop]), by intro r hr; simp [runLoop] at hr⟩
      | bool b => exact ⟨[], _, rfl, rfl, by intro h; exact absurd h (by simp [runLoop]), by intro r hr; simp [runLoop] at hr⟩
      | num n => exact ⟨[], _, rfl, rfl, by intro h; exact absurd h (by simp [runLoop]), by intro r hr; simp [runLoop] at hr⟩
      | str s => exact ⟨[], _, rfl, rfl, by intro h; exact absurd h (by simp [runLoop]), by intro r hr; simp [runLoop] at hr⟩
      | arr xs => exact ⟨[], _, rfl, rfl, by intro h; exact absurd h (by simp [runLoop]), by intro r hr; simp [runLoop] at hr⟩

theorem runLoop_no_crash {σ : Type} (B : DriverBehavior σ) (input : List InputLine)
    (st : BridgeState σ) (h : input.all lineOk = true) :
    (runLoop B st input).crashed = none ∧
    (runLoop B st input).diagLines = input.filterMap diagOf ∧
    (runLoop B st input).responses.map Response.id = input.filterMap lineCmdId := by
  induction input generalizing st with
  | nil => exact ⟨rfl, rfl, rfl⟩
  | cons l rest ih =>
    rw [List.all_cons, Bool.and_eq_true] at h
    cases l with
    | blank =>
      obtain ⟨h1, h2, h3⟩ := ih st h.2
      exact ⟨by simpa [runLoop], by simpa [runLoop, diagOf], by simpa [runLoop, lineCmdId]⟩
    | badJson m =>
      obtain ⟨h1, h2, h3⟩ := ih st h.2
      refine ⟨by simpa [runLoop], ?_, by simpa [runLoop, lineCmdId]⟩
      simp only [runLoop, List.filterMap_cons, diagOf]
      rw [h2]
    | jsonVal v =>
      cases v with
      | obj kvs =>
        obtain ⟨resp, st', hp⟩ := processCmd_hashable_ok B kvs st (by simpa [lineOk] using h.1)
        obtain ⟨h1, h2, h3⟩ := ih st' h.2
        refine ⟨by simpa [runLoop, hp], by simpa [runLoop, hp, diagOf], ?_⟩
        simp only [runLoop, hp, List.map_cons, List.filterMap_cons, lineCmdId]
        rw [(processCmd_wf B kvs st resp st' hp).1, h3]
      | null => simp [lineOk] at h
      | bool b => simp [lineOk] at h
      | num n => simp [lineOk] at h
      | str s => simp [lineOk] at h
      | arr xs => simp [lineOk] at h

theorem navigate_uninit {σ : Type} (B : DriverBehavior σ) (params : JValue) (w : σ) :
    isErr (navigate B params ⟨false, w⟩).1 = true ∧
    (navigate B params ⟨false, w⟩).2 = ⟨false, w⟩ := by
  unfold navigate
  cases params with
  | obj kvs =>
    by_cases h : ((List.lookup "url" kvs).getD JValue.null).isFalsy = true <;>
      simp [jget, hbind, hpure, callDriver, isErr, h]
  | null => exact ⟨rfl, rfl⟩
  | bool b => exact ⟨rfl, rfl⟩
  | num n => exact ⟨rfl, rfl⟩
  | str s => exact ⟨rfl, rfl⟩
  | arr xs => exact ⟨rfl, rfl⟩

theorem click_uninit {σ : Type} (B : DriverBehavior σ) (params : JValue) (w : σ) :
    isErr (click B params ⟨false, w⟩).1 = true ∧
    (click B params ⟨false, w⟩).2 = ⟨false, w⟩ := by
  unfold click
  cases params with
  | obj kvs =>
    by_cases h : ((List.lookup "selector" kvs).getD JValue.null).isFalsy = true <;>
    by_cases h2 : ((List.lookup "ucClick" kvs).getD (JValue.bool true)).isFalsy = true <;>
      simp [jget, hbind, hpure, callDriver, isErr, h, h2]
  | null => exact ⟨rfl, rfl⟩
  | bool b => exact ⟨rfl, rfl⟩
  | num n => exact ⟨rfl, rfl⟩
  | str s => exact ⟨rfl, rfl⟩
  | arr xs => exact ⟨rfl, rfl⟩

theorem type_text_uninit {σ : Type} (B : DriverBehavior σ) (params : JValue) (w : σ) :
    isErr (type_text B params ⟨false, w⟩).1 = true ∧
    (type_text B params ⟨false, w⟩).2 = ⟨false, w⟩ := by
  unfold type_text
  cases params with
  | obj kvs =>
    by_cases h : (((List.lookup "selector" kvs).getD JValue.null).isFalsy
        || ((List.lookup "text" kvs).getD JValue.null).isNull) = true <;>
    by_cases h2 : ((List.lookup "clear" kvs).getD (JValue.bool false)).isFalsy = true <;>
      simp [jget, hbind, hpure, callDriver, isErr, h, h2]
  | null => exact ⟨rfl, rfl⟩
  | bool b => exact ⟨rfl, rfl⟩
  | num n => exact ⟨rfl, rfl⟩
  | str s => exact ⟨rfl, rfl⟩
  | arr xs => exact ⟨rfl, rfl⟩

theorem fill_uninit {σ : Type} (B : DriverBehavior σ) (params : JValue) (w : σ) :
    isErr (fill B params ⟨false, w⟩).1 = true ∧
    (fill B params ⟨false, w⟩).2 = ⟨false, w⟩ := by
  unfold fill
  cases params with
  | obj kvs =>
    by_cases h : (((List.lookup "selector" kvs).getD JValue.null).isFalsy
        || ((List.lookup "value" kvs).getD JValue.null).isNull) = true <;>
      simp [jget, hbind, hpure, callDriver, isErr, h]
  | null => exact ⟨rfl, rfl⟩
  | bool b => exact ⟨rfl, rfl⟩
  | num n => exact ⟨rfl, rfl⟩
  | str s => exact ⟨rfl, rfl⟩
  | arr xs => exact ⟨rfl, rfl⟩

theorem screenshot_uninit {σ : Type} (B : DriverBehavior σ) (params : JValue) (w : σ) :
    isErr (screenshot B params ⟨false, w⟩).1 = true ∧
    (screenshot B params ⟨false, w⟩).2 = ⟨false, w⟩ := by
  exact ⟨rfl, rfl⟩

theorem snapshot_uninit {σ : Type} (B : DriverBehavior σ) (params : JValue) (w : σ) :
    isErr (snapshot B params ⟨false, w⟩).1 = true ∧
    (snapshot B params ⟨false, w⟩).2 = ⟨false, w⟩ := by
  unfold snapshot
  cases params with
  | obj kvs =>
    by_cases h : ((List.lookup "format" kvs).getD (JValue.str "html")).eqStr "html" = true <;>
      simp [jget, hbind, hpure, callDriver, isErr, h]
  | null => exact ⟨rfl, rfl⟩
  | bool b => exact ⟨rfl, rfl⟩
  | num n => exact ⟨rfl, rfl⟩
  | str s => exact ⟨rfl, rfl⟩
  | arr xs => exact ⟨rfl, rfl⟩

theorem evaluate_uninit {σ : Type} (B : DriverBehavior σ) (params : JValue) (w : σ) :
    isErr (evaluate B params ⟨false, w⟩).1 = true ∧
    (evaluate B params ⟨false, w⟩).2 = ⟨false, w⟩ := by
  unfold evaluate
  cases params with
  | obj kvs =>
    by_cases h : ((List.lookup "script" kvs).getD JValue.null).isFalsy = true <;>
      simp [jget, hbind, hpure, callDriver, isErr, h]
  | null => exact ⟨rfl, rfl⟩
  | bool b => exact ⟨rfl, rfl⟩
  | num n => exact ⟨rfl, rfl⟩
  | str s => exact ⟨rfl, rfl⟩
  | arr xs => exact ⟨rfl, rfl⟩

theorem wait_element_uninit {σ : Type} (B : DriverBehavior σ) (params : JValue) (w : σ) :
    isErr (wait_element B params ⟨false, w⟩).1 = true ∧
    (wait_element B params ⟨false, w⟩).2 = ⟨false, w⟩ := by
  unfold wait_element
  cases params with
  | obj kvs =>
    by_cases h : ((List.lookup "selector" kvs).getD JValue.null).isFalsy = true <;>
      simp [jget, hbind, hpure, callDriver, isErr, h]
  | null => exact ⟨rfl, rfl⟩
  | bool b => exact ⟨rfl, rfl⟩
  | num n => exact ⟨rfl, rfl⟩
  | str s => exact ⟨rfl, rfl⟩
  | arr xs => exact ⟨rfl, rfl⟩

theorem scroll_uninit {σ : Type} (B : DriverBehavior σ) (params : JValue) (w : σ) :
    isErr (scroll B params ⟨false, w⟩).1 = true ∧
    (scroll B params ⟨false, w⟩).2 = ⟨false, w⟩ := by
  unfold scroll
  cases params with
  | obj kvs =>
    by_cases hmem : "selector" ∈ List.map Prod.fst kvs
    · rcases hl : List.lookup "selector" kvs with _ | v <;>
        simp [jContains, jIndex, hbind, hpure, jget, callDriver, isErr, hmem, hl,
          Except.map, JValue.isFalsy]
    · by_cases h2 : ((List.lookup "direction" kvs).getD (JValue.str "down")).eqStr "down" = true <;>
        simp [jContains, jIndex, hbind, hpure, jget, callDriver, isErr, hmem, h2,
          Except.map, JValue.isFalsy]
  | str s =>
    refine ⟨?_, ?_⟩ <;>
      (simp only [jContains, hbind, hpure, Except.map]
       split <;> simp [jIndex, jget, callDriver, isErr])
  | arr xs =>
    refine ⟨?_, ?_⟩ <;>
      (simp only [jContains, hbind, hpure, Except.map]
       split <;> simp [jIndex, jget, callDriver, isErr])
  | null => exact ⟨rfl, rfl⟩
  | bool b => exact ⟨rfl, rfl⟩
  | num n => exact ⟨rfl, rfl⟩

theorem solve_turnstile_uninit {σ : Type} (B : DriverBehavior σ) (params : JValue) (w : σ) :
    isErr (solve_turnstile B params ⟨false, w⟩).1 = true ∧
    (solve_turnstile B params ⟨false, w⟩).2 = ⟨false, w⟩ := by
  exact ⟨rfl, rfl⟩

theorem runHandler_uninit {σ : Type} (B : DriverBehavior σ) (s : String) (params : JValue)
    (w : σ) (hs : s ∈ handlerNames)
    (hnot : s ∉ ["init", "get_url", "get_title", "close"]) :
    isErr (runHandler B s params ⟨false, w⟩).1 = true ∧
    (runHandler B s params ⟨false, w⟩).2 = ⟨false, w⟩ := by
  simp only [handlerNames, List.mem_cons, List.not_mem_nil, or_false] at hs
  rcases hs with rfl | rfl | rfl | rfl | rfl | rfl | rfl | rfl | rfl | rfl | rfl | rfl | rfl | rfl
  · exact absurd (by simp) hnot
  · exact navigate_uninit B params w
  · exact click_uninit B params w
  · exact type_text_uninit B params w
  · exact fill_uninit B params w
  · exact screenshot_uninit B params w
  · exact snapshot_uninit B params w
  · exact evaluate_uninit B params w
  · exact wait_element_uninit B params w
  · exact scroll_uninit B params w
  · exact absurd (by simp) hnot
  · exact absurd (by simp) hnot
  · exact absurd (by simp) hnot
  · exact solve_turnstile_uninit B params w

theorem close_ok_driver_cleared {σ : Type} (B : DriverBehavior σ) (params : JValue)
    (st : BridgeState σ) (h : isErr (close B params st).1 = false) :
    (close B params st).2.driver = false := by
  unfold close at h ⊢
  cases hd : st.driver with
  | false => simp [hd]
  | true =>
    rcases hq : B.step st.world .quitDriver with ⟨e, w'⟩
    cases e with
    | ok v => simp [hd, hq]
    | error m => simp [hd, hq, isErr] at h

/-- C10: the `HYDRA_*` environment variables read at bridge startup
never influence observable behaviour: two runs on the same command
stream and browser engine, differing only in the environment, produce
identical outcomes (responses, diagnostics, crash status and final
state), since driver configuration is taken solely from the `init`
command's params. -/
theorem env_vars_do_not_influence_bridge (σ : Type) (env1 env2 : Env)
    (B : DriverBehavior σ) (w0 : σ) (input : List InputLine) :
    bridgeMain env1 B w0 input = bridgeMain env2 B w0 input := rfl

/-- C1 (amended): the bridge emits exactly one Response per command
object it dispatches, echoing its `id`, in input order; an uncaught
crash — a line that is non-object JSON, or a command object whose
method value is an unhashable JSON array/object (a `TypeError` at the
`method not in handlers` test) — terminates the run at that line with
no Response for it and no further lines read.  For every emitted
Response, `error` is populated exactly when `success` is false and
never together with `data`; `data` is populated only on success — but a
successful handler returning `null` yields a Response with neither
`data` nor `error`, so "exactly one of `data`/`error`" does not hold
for such responses. -/
theorem bridge_one_response_per_command (σ : Type) (env : Env)
    (B : DriverBehavior σ) (w0 : σ) (input : List InputLine) :
    ∃ pre post, input = pre ++ post ∧
      (bridgeMain env B w0 input).responses.map Response.id = pre.filterMap lineCmdId ∧
      ((bridgeMain env B w0 input).crashed = none → post = []) ∧
      ∀ r ∈ (bridgeMain env B w0 input).responses,
        (r.error.isSome = true ↔ r.success = false) ∧
        ¬(r.data.isSome = true ∧ r.error.isSome = true) ∧
        (r.data.isSome = true → r.success = true) :=
  runLoop_responses B input ⟨false, w0⟩

/-- C1, counterexample to the claim as stated: after a successful
`init`, an `evaluate` whose script returns `null` produces a Response
with `success=true` and neither `data` nor `error` populated
(`send_response` omits `data` when the result `is None`), refuting
"exactly one of the Response's data/error fields is populated (data
exactly when success is true)". -/
theorem success_response_may_lack_data :
    (bridgeMain noEnv recordingDriver [] nullResultInput).responses.map
      (fun r => (r.id, r.success, r.data, r.error)) =
    [(JValue.num 1, true, some (JValue.bool true), none),
     (JValue.num 2, true, none, none)] := rfl

/-- C1 witness: the amended theorem instantiated on a concrete run. -/
theorem bridge_one_response_per_command_witness :
    ∃ pre post, nullResultInput = pre ++ post ∧
      (bridgeMain noEnv recordingDriver [] nullResultInput).responses.map Response.id
        = pre.filterMap lineCmdId ∧
      ((bridgeMain noEnv recordingDriver [] nullResultInput).crashed = none → post = []) ∧
      ∀ r ∈ (bridgeMain noEnv recordingDriver [] nullResultInput).responses,
        (r.error.isSome = true ↔ r.success = false) ∧
        ¬(r.data.isSome = true ∧ r.error.isSome = true) ∧
        (r.data.isSome = true → r.success = true) :=
  bridge_one_response_per_command (List DriverOp) noEnv recordingDriver [] nullResultInput

/-- C2 (amended): an input line that fails to decode as JSON is reported
on stderr, produces no Response, and does not stop the loop; as long as
every line is blank, undecodable, or an object whose method value is
hashable (`lineOk`), the bridge never crashes and answers exactly the
object lines.  Two error categories do terminate it, contrary to the
claim: a line decoding to a non-object JSON value (uncaught
`AttributeError` at `cmd.get`), and an object line whose method value
is a JSON array or object (uncaught `TypeError` at the
`method not in handlers` test) — see the counterexample for both. -/
theorem undecodable_lines_reported_and_skipped (σ : Type) (env : Env)
    (B : DriverBehavior σ) (w0 : σ) (input : List InputLine)
    (h : input.all lineOk = true) :
    (bridgeMain env B w0 input).crashed = none ∧
    (bridgeMain env B w0 input).diagLines = input.filterMap diagOf ∧
    (bridgeMain env B w0 input).responses.map Response.id = input.filterMap lineCmdId :=
  runLoop_no_crash B input ⟨false, w0⟩ h

/-- C2, counterexample to the claim as stated: the line `42` decodes as
JSON but is not a structured command object; `cmd.get('id', '')` raises
an uncaught `AttributeError` (only `json.JSONDecodeError` is caught),
so the bridge emits nothing, reports nothing to stderr, and terminates
— refuting "does not crash, and continues processing subsequent
lines".  Likewise the object line with `"method": []` reaches the
`method not in handlers` test, where the unhashable list raises an
uncaught `TypeError` that also terminates the bridge with no
Response. -/
theorem nonobject_json_line_crashes_bridge :
    (bridgeMain noEnv stubDriver () [.jsonVal (.num 42)]).crashed
        = some "'int' object has no attribute 'get'" ∧
    (bridgeMain noEnv stubDriver () [.jsonVal (.num 42)]).responses = [] ∧
    (bridgeMain noEnv stubDriver () [.jsonVal (.num 42)]).diagLines = [] ∧
    (bridgeMain noEnv stubDriver ()
        [.jsonVal (.obj [("id", .num 1), ("method", .arr [])])]).crashed
      = some "unhashable type: 'list'" ∧
    (bridgeMain noEnv stubDriver ()
        [.jsonVal (.obj [("id", .num 1), ("method", .arr [])])]).responses = [] :=
  ⟨rfl, rfl, rfl, rfl, rfl⟩

/-- C2 witness: a stream with an undecodable line, a blank line and one
command runs to completion with the expected diagnostics. -/
theorem undecodable_lines_reported_and_skipped_witness :
    (bridgeMain noEnv stubDriver () mixedInput).crashed = none ∧
    (bridgeMain noEnv stubDriver () mixedInput).diagLines = mixedInput.filterMap diagOf ∧
    (bridgeMain noEnv stubDriver () mixedInput).responses.map Response.id
      = mixedInput.filterMap lineCmdId :=
  undecodable_lines_reported_and_skipped Unit noEnv stubDriver () mixedInput (by decide)

/-- C3 (amended): while the session is Uninitialized, every method other
than `init`, `get_url`, `get_title` *and `close`* yields a failed
Response and leaves the state untouched; `get_url` succeeds with the
sentinel `'about:blank'`, `get_title` succeeds with `''` — and `close`
succeeds with `true` (it is a no-op on a missing driver), contrary to
the claim as stated. -/
theorem uninitialized_dispatch_fails (σ : Type) (B : DriverBehavior σ) (w : σ)
    (cmdId params : JValue) :
    (∀ s : String, s ∉ ["init", "get_url", "get_title", "close"] →
      ∃ m, processCmd B [("id", cmdId), ("method", .str s), ("params", params)]
          ⟨false, w⟩ = .ok (⟨cmdId, false, none, some m⟩, ⟨false, w⟩)) ∧
    (processCmd B [("id", cmdId), ("method", .str "get_url"), ("params", params)] ⟨false, w⟩
      = .ok (⟨cmdId, true, some (.str "about:blank"), none⟩, ⟨false, w⟩)) ∧
    (processCmd B [("id", cmdId), ("method", .str "get_title"), ("params", params)] ⟨false, w⟩
      = .ok (⟨cmdId, true, some (.str ""), none⟩, ⟨false, w⟩)) ∧
    (processCmd B [("id", cmdId), ("method", .str "close"), ("params", params)] ⟨false, w⟩
      = .ok (⟨cmdId, true, some (.bool true), none⟩, ⟨false, w⟩)) := by
  refine ⟨?_, rfl, rfl, rfl⟩
  intro s hnot
  by_cases hs : s ∈ handlerNames
  · obtain ⟨h1, h2⟩ := runHandler_uninit B s params w hs hnot
    rcases hr : runHandler B s params ⟨false, w⟩ with ⟨e, st'⟩
    cases e with
    | ok v => rw [hr] at h1; simp [isErr] at h1
    | error m =>
      rw [hr] at h2
      have h2x : st' = (⟨false, w⟩ : BridgeState σ) := h2
      exact ⟨m, by simp [processCmd, List.lookup, hs, hr, h2x]⟩
  · exact ⟨"Unknown method: " ++ s, by simp [processCmd, List.lookup, hs]⟩

/-- C3, counterexample to the claim as stated: a `close` command
dispatched on the Uninitialized session is not one of the claim's
exceptions (`init`, `get_url`, `get_title`) yet yields `success=true`
(`close` is a guarded no-op when `driver` is `None`). -/
theorem close_on_uninitialized_succeeds :
    processCmd stubDriver (closeKvs (.num 7)) ⟨false, ()⟩
      = .ok (⟨.num 7, true, some (.bool true), none⟩, ⟨false, ()⟩) := rfl

/-- C3 witness: the amended theorem instantiated at method `navigate`. -/
theorem uninitialized_dispatch_fails_witness :
    ∃ m, processCmd stubDriver [("id", JValue.num 5), ("method", .str "navigate"),
        ("params", .obj [("url", .str "https://x.example/")])] ⟨false, ()⟩
      = .ok (⟨JValue.num 5, false, none, some m⟩, ⟨false, ()⟩) :=
  (uninitialized_dispatch_fails Unit stubDriver () (JValue.num 5)
    (.obj [("url", .str "https://x.example/")])).1 "navigate" (by decide)

/-- C4 (amended): every method requiring a selector, text, url, value or
script (`navigate`, `click`, `type`, `fill`, `evaluate`, `wait_element`)
validates its presence and yields a failed Response with the
parameter-missing error, touching neither the driver flag nor the
external world; `init`, however, performs no validation of `profileDir`
— it forwards `params.get('profileDir')` (null when absent) straight to
the `Driver` constructor, as the final conjunct exhibits on a recording
engine. -/
theorem required_param_validation (σ : Type) (B : DriverBehavior σ)
    (st : BridgeState σ) (kvs : List (String × JValue)) :
    (((List.lookup "url" kvs).getD JValue.null).isFalsy = true →
      navigate B (.obj kvs) st = (.error "URL required", st)) ∧
    (((List.lookup "selector" kvs).getD JValue.null).isFalsy = true →
      click B (.obj kvs) st = (.error "Selector required", st)) ∧
    ((((List.lookup "selector" kvs).getD JValue.null).isFalsy
        || ((List.lookup "text" kvs).getD JValue.null).isNull) = true →
      type_text B (.obj kvs) st = (.error "Selector and text required", st)) ∧
    ((((List.lookup "selector" kvs).getD JValue.null).isFalsy
        || ((List.lookup "value" kvs).getD JValue.null).isNull) = true →
      fill B (.obj kvs) st = (.error "Selector and value required", st)) ∧
    (((List.lookup "script" kvs).getD JValue.null).isFalsy = true →
      evaluate B (.obj kvs) st = (.error "Script required", st)) ∧
    (((List.lookup "selector" kvs).getD JValue.null).isFalsy = true →
      wait_element B (.obj kvs) st = (.error "Selector required", st)) ∧
    init_driver recordingDriver (.obj []) ⟨false, []⟩
      = (.ok (.bool true),
         ⟨true, [.setWindowSize (.num 1280) (.num 720),
                 .createDriver (.bool false) .null none]⟩) := by
  refine ⟨?_, ?_, ?_, ?_, ?_, ?_, rfl⟩ <;> intro h <;>
    simp [navigate, click, type_text, fill, evaluate, wait_element,
      hbind, hpure, jget, h]

/-- C4, counterexample to the claim as stated: an `init` command with no
`profileDir` is not rejected with a parameter-missing error — it
succeeds, and the recorded operation trace shows the `Driver`
constructor receiving a null `user_data_dir`, i.e. the undefined value
was forwarded to the driver. -/
theorem init_forwards_missing_profileDir :
    processCmd recordingDriver
        [("id", JValue.num 1), ("method", .str "init"), ("params", .obj [])] ⟨false, []⟩
      = .ok (⟨JValue.num 1, true, some (.bool true), none⟩,
         ⟨true, [.setWindowSize (.num 1280) (.num 720),
                 .createDriver (.bool false) .null none]⟩) := rfl

/-- C4 witness: the validation conjuncts instantiated on empty params. -/
theorem required_param_validation_witness :
    navigate stubDriver (.obj []) ⟨false, ()⟩ = (.error "URL required", ⟨false, ()⟩) ∧
    type_text stubDriver (.obj []) ⟨false, ()⟩
      = (.error "Selector and text required", ⟨false, ()⟩) ∧
    wait_element stubDriver (.obj []) ⟨false, ()⟩
      = (.error "Selector required", ⟨false, ()⟩) :=
  ⟨(required_param_validation Unit stubDriver ⟨false, ()⟩ []).1 (by decide),
   (required_param_validation Unit stubDriver ⟨false, ()⟩ []).2.2.1 (by decide),
   (required_param_validation Unit stubDriver ⟨false, ()⟩ []).2.2.2.2.2.1 (by decide)⟩

/-- C8: a command whose method is not in the dispatch table yields a
Response with `success=false`, error message `"Unknown method: "` plus
the method name, echoing the original id; the state is untouched and
the read loop continues with the remaining input exactly as it would
have without this command. -/
theorem unknown_method_rejected_loop_continues (σ : Type) (B : DriverBehavior σ)
    (st : BridgeState σ) (cmdId params : JValue) (rest : List InputLine)
    (s : String) (hs : s ∉ handlerNames) :
    processCmd B [("id", cmdId), ("method", .str s), ("params", params)] st
      = .ok (⟨cmdId, false, none, some ("Unknown method: " ++ s)⟩, st) ∧
    runLoop B st (.jsonVal (.obj [("id", cmdId), ("method", .str s), ("params", params)]) :: rest)
      = { runLoop B st rest with
          responses := ⟨cmdId, false, none, some ("Unknown method: " ++ s)⟩
            :: (runLoop B st rest).responses } := by
  have hp : processCmd B [("id", cmdId), ("method", .str s), ("params", params)] st
      = .ok (⟨cmdId, false, none, some ("Unknown method: " ++ s)⟩, st) := by
    simp [processCmd, List.lookup, hs]
  refine ⟨hp, ?_⟩
  show (match processCmd B [("id", cmdId), ("method", .str s), ("params", params)] st with
        | .error m => (⟨[], [], some m, st⟩ : RunResult σ)
        | .ok (resp, st') =>
          let r := runLoop B st' rest
          { r with responses := resp :: r.responses }) = _
  rw [hp]

/-- C8 witness: method `"teleport"` yields exactly
`success=false, error="Unknown method: teleport"` with the id echoed,
and the loop goes on to answer a following command. -/
theorem unknown_method_rejected_loop_continues_witness :
    processCmd stubDriver
        [("id", JValue.str "a7"), ("method", .str "teleport"), ("params", .obj [])] ⟨false, ()⟩
      = .ok (⟨JValue.str "a7", false, none, some "Unknown method: teleport"⟩, ⟨false, ()⟩) ∧
    runLoop stubDriver ⟨false, ()⟩
        (.jsonVal (.obj [("id", JValue.str "a7"), ("method", .str "teleport"),
          ("params", .obj [])]) :: [mkCmd (.num 8) "get_url" (.obj [])])
      = { runLoop stubDriver ⟨false, ()⟩ [mkCmd (.num 8) "get_url" (.obj [])] with
          responses := ⟨JValue.str "a7", false, none, some "Unknown method: teleport"⟩
            :: (runLoop stubDriver ⟨false, ()⟩ [mkCmd (.num 8) "get_url" (.obj [])]).responses } :=
  unknown_method_rejected_loop_continues Unit stubDriver ⟨false, ()⟩ (JValue.str "a7")
    (.obj []) [mkCmd (.num 8) "get_url" (.obj [])] "teleport" (by decide)

/-- C9: a `close` command followed immediately by a second `close` never
crashes the loop (each emits exactly one Response), and whenever the
first `close` succeeds — in particular whenever the session was already
released — the second `close` is a no-op: it performs no driver
operation, leaves the state exactly as it was, and answers
`success=true` with `data=true`. -/
theorem double_close_is_noop_success (σ : Type) (B : DriverBehavior σ)
    (st : BridgeState σ) (id1 id2 : JValue) (r1 : Response) (st1 : BridgeState σ)
    (hp1 : processCmd B (closeKvs id1) st = .ok (r1, st1)) :
    ∃ r2 st2, processCmd B (closeKvs id2) st1 = .ok (r2, st2) ∧
      (runLoop B st [.jsonVal (.obj (closeKvs id1)), .jsonVal (.obj (closeKvs id2))]).crashed
        = none ∧
      (runLoop B st [.jsonVal (.obj (closeKvs id1)), .jsonVal (.obj (closeKvs id2))]).responses
        = [r1, r2] ∧
      (r1.success = true → r2 = ⟨id2, true, some (.bool true), none⟩ ∧ st2 = st1) := by
  have hdrv : r1.success = true → st1.driver = false := by
    intro h1
    have hcl1 : processCmd B (closeKvs id1) st
        = (match close B (.obj []) st with
           | (.ok v, st') =>
             .ok ((⟨id1, true, if v.isNull then none else some v, none⟩ : Response), st')
           | (.error m, st') => .ok ((⟨id1, false, none, some m⟩ : Response), st')) := rfl
    rw [hp1] at hcl1
    rcases hc1 : close B (.obj []) st with ⟨e1, st1'⟩
    rw [hc1] at hcl1
    cases e1 with
    | ok v =>
      simp only [Except.ok.injEq, Prod.mk.injEq] at hcl1
      rw [hcl1.2]
      have := close_ok_driver_cleared B (.obj []) st (by rw [hc1]; rfl)
      rwa [hc1] at this
    | error m =>
      simp only [Except.ok.injEq, Prod.mk.injEq] at hcl1
      rw [hcl1.1] at h1
      simp at h1
  have hcl2 : processCmd B (closeKvs id2) st1
      = (match close B (.obj []) st1 with
         | (.ok v, st') =>
           .ok ((⟨id2, true, if v.isNull then none else some v, none⟩ : Response), st')
         | (.error m, st') => .ok ((⟨id2, false, none, some m⟩ : Response), st')) := rfl
  rcases hc2 : close B (.obj []) st1 with ⟨e2, st2'⟩
  rw [hc2] at hcl2
  cases e2 with
  | ok v =>
    have hp2 : processCmd B (closeKvs id2) st1
        = .ok (⟨id2, true, if v.isNull then none else some v, none⟩, st2') := hcl2
    have hrun2 : runLoop B st1 [.jsonVal (.obj (closeKvs id2))]
        = ⟨[⟨id2, true, if v.isNull then none else some v, none⟩], [], none, st2'⟩ := by
      show (match processCmd B (closeKvs id2) st1 with
            | .error m => (⟨[], [], some m, st1⟩ : RunResult σ)
            | .ok (resp, st') =>
              let r := runLoop B st' []
              { r with responses := resp :: r.responses }) = _
      rw [hp2]
      rfl
    have hrun : runLoop B st [.jsonVal (.obj (closeKvs id1)), .jsonVal (.obj (closeKvs id2))]
        = ⟨[r1, ⟨id2, true, if v.isNull then none else some v, none⟩], [], none, st2'⟩ := by
      show (match processCmd B (closeKvs id1) st with
            | .error m => (⟨[], [], some m, st⟩ : RunResult σ)
            | .ok (resp, st') =>
              let r := runLoop B st' [.jsonVal (.obj (closeKvs id2))]
              { r with responses := resp :: r.responses }) = _
      rw [hp1]
      show (let r := runLoop B st1 [.jsonVal (.obj (closeKvs id2))]
            { r with responses := r1 :: r.responses }) = _
      rw [hrun2]
    refine ⟨_, st2', hp2, by rw [hrun], by rw [hrun], ?_⟩
    intro h1
    have hd := hdrv h1
    have hcval : close B (.obj []) st1 = ((.ok (.bool true) : Except String JValue), st1) := by
      rcases st1 with ⟨d, w1⟩
      change d = false at hd
      subst hd
      rfl
    rw [hcval] at hc2
    have hv : (Except.ok (JValue.bool true) : Except String JValue) = .ok v :=
      congrArg Prod.fst hc2
    have hst : st1 = st2' := congrArg Prod.snd hc2
    injection hv with hv
    rw [← hv, ← hst]
    exact ⟨rfl, rfl⟩
  | error m =>
    have hp2 : processCmd B (closeKvs id2) st1
        = .ok (⟨id2, false, none, some m⟩, st2') := hcl2
    have hrun2 : runLoop B st1 [.jsonVal (.obj (closeKvs id2))]
        = ⟨[⟨id2, false, none, some m⟩], [], none, st2'⟩ := by
      show (match processCmd B (closeKvs id2) st1 with
            | .error m => (⟨[], [], some m, st1⟩ : RunResult σ)
            | .ok (resp, st') =>
              let r := runLoop B st' []
              { r with responses := resp :: r.responses }) = _
      rw [hp2]
      rfl
    have hrun : runLoop B st [.jsonVal (.obj (closeKvs id1)), .jsonVal (.obj (closeKvs id2))]
        = ⟨[r1, ⟨id2, false, none, some m⟩], [], none, st2'⟩ := by
      show (match processCmd B (closeKvs id1) st with
            | .error m => (⟨[], [], some m, st⟩ : RunResult σ)
            | .ok (resp, st') =>
              let r := runLoop B st' [.jsonVal (.obj (closeKvs id2))]
              { r with responses := resp :: r.responses }) = _
      rw [hp1]
      show (let r := runLoop B st1 [.jsonVal (.obj (closeKvs id2))]
            { r with responses := r1 :: r.responses }) = _
      rw [hrun2]
    refine ⟨_, st2', hp2, by rw [hrun], by rw [hrun], ?_⟩
    intro h1
    have hd := hdrv h1
    have hcval : close B (.obj []) st1 = ((.ok (.bool true) : Except String JValue), st1) := by
      rcases st1 with ⟨d, w1⟩
      change d = false at hd
      subst hd
      rfl
    rw [hcval] at hc2
    have hv : (Except.ok (JValue.bool true) : Except String JValue) = .error m :=
      congrArg Prod.fst hc2
    exact Except.noConfusion hv

/-- C9 witness: on an Active session whose `quit` succeeds, the first
`close` succeeds (releasing the session), and the second is a success
no-op on the resulting state. -/
theorem double_close_is_noop_success_witness :
    ∃ r2 st2, processCmd stubDriver (closeKvs (.num 11)) ⟨false, ()⟩ = .ok (r2, st2) ∧
      (runLoop stubDriver ⟨true, ()⟩ [.jsonVal (.obj (closeKvs (.num 10))),
        .jsonVal (.obj (closeKvs (.num 11)))]).crashed = none ∧
      (runLoop stubDriver ⟨true, ()⟩ [.jsonVal (.obj (closeKvs (.num 10))),
        .jsonVal (.obj (closeKvs (.num 11)))]).responses
        = [⟨JValue.num 10, true, some (.bool true), none⟩, r2] ∧
      ((⟨JValue.num 10, true, some (.bool true), none⟩ : Response).success = true →
        r2 = ⟨JValue.num 11, true, some (.bool true), none⟩ ∧ st2 = ⟨false, ()⟩) :=
  double_close_is_noop_success Unit stubDriver ⟨true, ()⟩ (.num 10) (.num 11)
    ⟨JValue.num 10, true, some (.bool true), none⟩ ⟨false, ()⟩ rfl

theorem lookup_google_site (name : String) (site : Site)
    (h : List.lookup name SITES = some site) (hg : name = "google") :
    site.success_indicator = "mail.google.com/mail" := by
  subst hg
  have : List.lookup "google" SITES
      = some ⟨"https://accounts.google.com/", "https://mail.google.com/",
              "mail.google.com/mail"⟩ := rfl
  rw [this] at h
  cases h
  rfl

/-- C5: for every configured site, the persistence check classifies the
final URL three ways using only host+path: success exactly when
`success_indicator` is a substring of host+path (the query string is
excluded); otherwise still-on-login exactly when the URL matches the
login/signin pattern; otherwise a distinct failure reporting expected
versus actual host+path.  The two closing conjuncts are the
specification's worked example: an indicator occurring only inside the
query string does not yield success. -/
theorem persistence_check_three_way (name : String) (site : Site) (url : String)
    (h : List.lookup (pyLower name) SITES = some site) :
    test_persistence name url = some (classify name site url) ∧
    (classify name site url = .success
      ↔ pyIn site.success_indicator (hostPath url) = true) ∧
    (pyIn site.success_indicator (hostPath url) = false →
      (classify name site url = .stillOnLogin
        ↔ (pyIn "accounts.google.com" (urlparse url).netloc
           || pyIn "/signin" (urlparse url).path
           || pyIn "/login" (urlparse url).path) = true)) ∧
    (pyIn site.success_indicator (hostPath url) = false →
      (pyIn "accounts.google.com" (urlparse url).netloc
       || pyIn "/signin" (urlparse url).path
       || pyIn "/login" (urlparse url).path) = false →
      classify name site url = .didNotPersist site.success_indicator (hostPath url)) ∧
    classify "site" exampleSite "https://site.example/account?utm_source=x" = .success ∧
    classify "site" exampleSite "https://site.example/login?next=/account" = .stillOnLogin := by
  have hgoogle : pyIn site.success_indicator
        ((urlparse url).netloc ++ (urlparse url).path) = false →
      (pyLower name == "google"
        && pyIn "mail.google.com/mail" ((urlparse url).netloc ++ (urlparse url).path))
        = false := by
    intro hsi
    by_cases hg : pyLower name = "google"
    · rw [lookup_google_site _ _ h hg] at hsi
      simp [hsi]
    · simp [hg]
  refine ⟨?_, ?_, ?_, ?_, by rfl, by rfl⟩
  · rw [test_persistence, h]
    rfl
  · simp only [classify, hostPath]
    by_cases hsi : pyIn site.success_indicator
        ((urlparse url).netloc ++ (urlparse url).path) = true
    · simp [hsi]
    · have hsi' : pyIn site.success_indicator
          ((urlparse url).netloc ++ (urlparse url).path) = false := by
        simpa using hsi
      rw [if_neg hsi, if_neg (by rw [hgoogle hsi']; simp)]
      rw [hsi']
      constructor
      · intro hc
        split at hc <;> simp_all
      · intro hx
        cases hx
  · intro hsi'
    replace hsi' : pyIn site.success_indicator
        ((urlparse url).netloc ++ (urlparse url).path) = false := hsi'
    simp only [classify, hostPath]
    rw [if_neg (by simp [hsi']), if_neg (by rw [hgoogle hsi']; simp)]
    by_cases hl : (pyIn "accounts.google.com" (urlparse url).netloc
        || pyIn "/signin" (urlparse url).path
        || pyIn "/login" (urlparse url).path) = true
    · rw [if_pos hl, hl]
      simp
    · have hl' : (pyIn "accounts.google.com" (urlparse url).netloc
          || pyIn "/signin" (urlparse url).path
          || pyIn "/login" (urlparse url).path) = false := by simpa using hl
      rw [if_neg hl, hl']
      simp
  · intro hsi' hl'
    replace hsi' : pyIn site.success_indicator
        ((urlparse url).netloc ++ (urlparse url).path) = false := hsi'
    simp only [classify, hostPath]
    rw [if_neg (by simp [hsi']), if_neg (by rw [hgoogle hsi']; simp),
      if_neg (by simp [hl'])]

/-- C5 witness: the three-way classification instantiated on the
`github` site descriptor: a settings URL whose indicator match is in
host+path classifies as success, and a login URL carrying the indicator
only in its query string classifies as still-on-login. -/
theorem persistence_check_three_way_witness :
    test_persistence "GitHub" "https://github.com/settings/profile"
      = some (classify "GitHub" ⟨"https://github.com/login",
          "https://github.com/settings/profile", "github.com/settings"⟩
          "https://github.com/settings/profile") ∧
    classify "GitHub" ⟨"https://github.com/login", "https://github.com/settings/profile",
        "github.com/settings"⟩ "https://github.com/settings/profile" = .success ∧
    classify "GitHub" ⟨"https://github.com/login", "https://github.com/settings/profile",
        "github.com/settings"⟩ "https://github.com/login?return_to=github.com/settings"
      = .stillOnLogin := by
  have h := persistence_check_three_way "GitHub"
    ⟨"https://github.com/login", "https://github.com/settings/profile", "github.com/settings"⟩
    "https://github.com/settings/profile" (by rfl)
  have h2 := persistence_check_three_way "GitHub"
    ⟨"https://github.com/login", "https://github.com/settings/profile", "github.com/settings"⟩
    "https://github.com/login?return_to=github.com/settings" (by rfl)
  exact ⟨h.1, h.2.1.mpr (by rfl), (h2.2.2.1 (by rfl)).mpr (by rfl)⟩

/-- C6: the Profile Pool Synchronizer attempts every (path, replica)
pair for replicas 1..9 independently — whatever other pairs fail, each
pair whose source artifact exists and whose copy does not raise ends
with the replica holding the canonical content; the reported summary is
the count of successful copies; and when an artifact is absent from the
canonical profile the count is strictly below the 45 possible items
(while, by the first conjunct, every present artifact is still copied
to every replica). -/
theorem sync_partial_failure_isolation (fails : Nat → String → Bool) (fs : PoolFS) :
    (∀ i ∈ poolIndices, ∀ p ∈ files_to_sync, ∀ c, fs.canonical p = some c →
      fails i p = false → (sync_to_all_pools fails fs).1.replica i p = some c) ∧
    (sync_to_all_pools fails fs).2 =
      (poolIndices.map (fun i => files_to_sync.countP
        (fun p => (fs.canonical p).isSome && !(fails i p)))).sum ∧
    (∀ p0 ∈ files_to_sync, fs.canonical p0 = none →
      (sync_to_all_pools fails fs).2 < poolIndices.length * files_to_sync.length) := by
  refine ⟨?_, ?_, ?_⟩
  · intro i hi p hp c hc hf
    rw [sync_to_all_pools, syncPools_replica]
    rw [if_pos ⟨hi, hp, by simp [hc], hf⟩]
    exact hc
  · rw [sync_to_all_pools, syncPools_count]
    simp
  · intro p0 hp0 hc0
    rw [sync_to_all_pools, syncPools_count]
    simp only [Prod.fst, Prod.snd, Nat.zero_add]
    have hterm : ∀ i, files_to_sync.countP
        (fun p => (fs.canonical p).isSome && !(fails i p)) < files_to_sync.length := by
      intro i
      refine lt_of_le_of_ne (List.countP_le_length _) (fun heq => ?_)
      have := List.countP_eq_length.mp heq p0 hp0
      rw [hc0] at this
      simp at this
    have h1 := hterm 1
    have h2 := hterm 2
    have h3 := hterm 3
    have h4 := hterm 4
    have h5 := hterm 5
    have h6 := hterm 6
    have h7 := hterm 7
    have h8 := hterm 8
    have h9 := hterm 9
    simp only [poolIndices, List.map_cons, List.map_nil, List.sum_cons, List.sum_nil,
      List.length_cons, List.length_nil] at h1 h2 h3 h4 h5 h6 h7 h8 h9 ⊢
    omega

/-- C6 witness: on a canonical profile missing its cookie store, with
one additional copy failure on pool-3's IndexedDB, every other present
artifact still reaches every replica and the reported count stays
strictly below 45. -/
theorem sync_partial_failure_isolation_witness :
    (sync_to_all_pools oneFailure cookielessFS).1.replica 5 "Default/IndexedDB"
      = some "content:Default/IndexedDB" ∧
    (sync_to_all_pools oneFailure cookielessFS).2 < 45 :=
  ⟨(sync_partial_failure_isolation oneFailure cookielessFS).1 5 (by decide)
      "Default/IndexedDB" (by decide) "content:Default/IndexedDB" rfl (by decide),
   (sync_partial_failure_isolation oneFailure cookielessFS).2.2
      "Default/Cookies" (by decide) rfl⟩

/-- C7: the Synchronizer is idempotent — with the canonical profile
unchanged (a fact the first run itself guarantees, third conjunct),
running it a second time leaves every replica slot exactly as the first
run left it. -/
theorem sync_idempotent (fails : Nat → String → Bool) (fs : PoolFS) :
    (∀ i p, (sync_to_all_pools fails (sync_to_all_pools fails fs).1).1.replica i p
      = (sync_to_all_pools fails fs).1.replica i p) ∧
    (sync_to_all_pools fails (sync_to_all_pools fails fs).1).1.canonical
      = (sync_to_all_pools fails fs).1.canonical ∧
    (sync_to_all_pools fails fs).1.canonical = fs.canonical := by
  have hcan : (sync_to_all_pools fails fs).1.canonical = fs.canonical :=
    syncPools_canonical fails poolIndices (fs, 0)
  have hcan2 : (sync_to_all_pools fails (sync_to_all_pools fails fs).1).1.canonical
      = (sync_to_all_pools fails fs).1.canonical := by
    simp only [sync_to_all_pools, syncPools_canonical]
  refine ⟨?_, hcan2, hcan⟩
  intro i p
  rw [sync_to_all_pools, syncPools_replica]
  by_cases hcond : i ∈ poolIndices ∧ p ∈ files_to_sync ∧
      (((sync_to_all_pools fails fs).1, 0).1.canonical p).isSome ∧ fails i p = false
  · rw [if_pos hcond]
    show (sync_to_all_pools fails fs).1.canonical p = (sync_to_all_pools fails fs).1.replica i p
    rw [sync_to_all_pools, syncPools_replica]
    have hcond2 : i ∈ poolIndices ∧ p ∈ files_to_sync ∧
        (((fs, 0) : PoolFS × Nat).1.canonical p).isSome ∧ fails i p = false := by
      obtain ⟨a, b, c, d⟩ := hcond
      refine ⟨a, b, ?_, d⟩
      show (fs.canonical p).isSome = true
      rw [← hcan]
      exact c
    rw [if_pos hcond2]
    show (sync_to_all_pools fails fs).1.canonical p = fs.canonical p
    rw [hcan]
  · rw [if_neg hcond]
